import Mathlib

/-!
Verification of the toolarr authorization-and-dispatch core.

Shallow embedding of the OAuth subsystem (`main.py`: dynamic client
registration, authorize, token, auth verification) and the JSON-RPC
dispatcher (`mcp_server.py`), with theorems settling the spec's claims.

Python dictionaries are modelled as association lists with Python `dict`
semantics (insert overwrites in place, insertion order preserved);
`time.time()` is modelled as a `Nat` parameter `now`; the values drawn from
`secrets.token_urlsafe` are modelled as explicit `String` inputs.
-/

namespace Toolarr

/-- Python `dict` lookup (`d[k]` / `k in d`), over an association list. -/
def lookupStr {α : Type} (k : String) : List (String × α) → Option α
  | [] => none
  | (k', v) :: rest => if k' = k then some v else lookupStr k rest

/-- Python `dict` insertion `d[k] = v`: overwrite in place, else append. -/
def insertStr {α : Type} (k : String) (v : α) : List (String × α) → List (String × α)
  | [] => [(k, v)]
  | (k', v') :: rest => if k' = k then (k, v) :: rest else (k', v') :: insertStr k v rest

/-- Python `del d[k]`: remove the (unique) binding of `k`. -/
def eraseStr {α : Type} (k : String) : List (String × α) → List (String × α)
  | [] => []
  | (k', v') :: rest => if k' = k then rest else (k', v') :: eraseStr k rest

/-! ### SHA-256 (`hashlib.sha256`), on byte lists, words as `Nat` mod 2^32 -/

/-- Truncate to a 32-bit word. -/
def w32 (x : Nat) : Nat := x % 4294967296

/-- 32-bit rotate right (inputs assumed < 2^32). -/
def rotr32 (n x : Nat) : Nat := w32 ((x >>> n) ||| (x <<< (32 - n)))

def shaCh (x y z : Nat) : Nat := (x &&& y) ^^^ ((x ^^^ 4294967295) &&& z)

def shaMaj (x y z : Nat) : Nat := (x &&& y) ^^^ (x &&& z) ^^^ (y &&& z)

def shaS0 (x : Nat) : Nat := rotr32 2 x ^^^ rotr32 13 x ^^^ rotr32 22 x

def shaS1 (x : Nat) : Nat := rotr32 6 x ^^^ rotr32 11 x ^^^ rotr32 25 x

def shas0 (x : Nat) : Nat := rotr32 7 x ^^^ rotr32 18 x ^^^ (x >>> 3)

def shas1 (x : Nat) : Nat := rotr32 17 x ^^^ rotr32 19 x ^^^ (x >>> 10)

/-- The 64 SHA-256 round constants (FIPS 180-4), in decimal. -/
def shaK : List Nat :=
  [1116352408, 1899447441, 3049323471, 3921009573, 961987163,
   1508970993, 2453635748, 2870763221, 3624381080, 310598401,
   607225278, 1426881987, 1925078388, 2162078206, 2614888103,
   3248222580, 3835390401, 4022224774, 264347078, 604807628,
   770255983, 1249150122, 1555081692, 1996064986, 2554220882,
   2821834349, 2952996808, 3210313671, 3336571891, 3584528711,
   113926993, 338241895, 666307205, 773529912, 1294757372,
   1396182291, 1695183700, 1986661051, 2177026350, 2456956037,
   2730485921, 2820302411, 3259730800, 3345764771, 3516065817,
   3600352804, 4094571909, 275423344, 430227734, 506948616,
   659060556, 883997877, 958139571, 1322822218, 1537002063,
   1747873779, 1955562222, 2024104815, 2227730452, 2361852424,
   2428436474, 2756734187, 3204031479, 3329325298]

/-- The eight SHA-256 initial hash values (FIPS 180-4), in decimal. -/
def shaH0 : List Nat :=
  [1779033703, 3144134277, 1013904242, 2773480762,
   1359893119, 2600822924, 528734635, 1541459225]

/-- Big-endian 4-byte words from a 64-byte block. -/
def bytesToWords : List Nat → List Nat
  | b0 :: b1 :: b2 :: b3 :: rest =>
      (b0 * 16777216 + b1 * 65536 + b2 * 256 + b3) :: bytesToWords rest
  | _ => []

/-- Extend the 16-word schedule to 64 words; `fuel` counts words still to add. -/
def shaExtend (w : List Nat) : Nat → List Nat
  | 0 => w
  | fuel + 1 =>
      let n := w.length
      let nw := w32 (shas1 (w.getD (n - 2) 0) + w.getD (n - 7) 0 +
                     shas0 (w.getD (n - 15) 0) + w.getD (n - 16) 0)
      shaExtend (w ++ [nw]) fuel

/-- One round of the SHA-256 compression function. -/
def shaRound (st : List Nat) (kw : Nat × Nat) : List Nat :=
  match st with
  | [a, b, c, d, e, f, g, h] =>
      let t1 := w32 (h + shaS1 e + shaCh e f g + kw.1 + kw.2)
      let t2 := w32 (shaS0 a + shaMaj a b c)
      [w32 (t1 + t2), a, b, c, w32 (d + t1), e, f, g]
  | other => other

/-- Process one 64-byte block. -/
def sha256Block (hs : List Nat) (block : List Nat) : List Nat :=
  let ws := shaExtend (bytesToWords block) 48
  let final := (shaK.zip ws).foldl shaRound hs
  (hs.zip final).map (fun p => w32 (p.1 + p.2))

/-- `n` as `k` big-endian bytes. -/
def beBytes (k n : Nat) : List Nat :=
  match k with
  | 0 => []
  | k' + 1 => beBytes k' (n / 256) ++ [n % 256]

/-- SHA-256 padding: `0x80`, zeros to 56 mod 64, 8-byte big-endian bit length. -/
def sha256Pad (msg : List Nat) : List Nat :=
  let z := (119 - msg.length % 64) % 64
  msg ++ [0x80] ++ List.replicate z 0 ++ beBytes 8 (msg.length * 8)

/-- Split into 64-byte chunks (input length is a multiple of 64). -/
def chunks64 (l : List Nat) : List (List Nat) :=
  go l (l.length)
where
  go (l : List Nat) : Nat → List (List Nat)
    | 0 => []
    | fuel + 1 =>
        match l with
        | [] => []
        | _ => l.take 64 :: go (l.drop 64) fuel

/-- SHA-256 digest (32 bytes) of a byte list. Models `hashlib.sha256(...).digest()`. -/
def sha256 (msg : List Nat) : List Nat :=
  let hs := (chunks64 (sha256Pad msg)).foldl sha256Block shaH0
  hs.foldr (fun h acc => beBytes 4 h ++ acc) []

/-! ### UTF-8 and base64 -/

/-- UTF-8 encoding of one character (models Python `str.encode()` per char). -/
def utf8EncodeChar (c : Char) : List Nat :=
  let n := c.toNat
  if n < 0x80 then [n]
  else if n < 0x800 then [0xC0 ||| (n >>> 6), 0x80 ||| (n &&& 0x3F)]
  else if n < 0x10000 then
    [0xE0 ||| (n >>> 12), 0x80 ||| ((n >>> 6) &&& 0x3F), 0x80 ||| (n &&& 0x3F)]
  else
    [0xF0 ||| (n >>> 18), 0x80 ||| ((n >>> 12) &&& 0x3F),
     0x80 ||| ((n >>> 6) &&& 0x3F), 0x80 ||| (n &&& 0x3F)]

/-- UTF-8 encoding of a string, as a byte list (models `s.encode()`). -/
def utf8Encode (s : String) : List Nat := s.data.flatMap utf8EncodeChar

/-- Is `b` a UTF-8 continuation byte? -/
def isCont (b : Nat) : Bool := 0x80 ≤ b && b ≤ 0xBF

/-- UTF-8 decoding of a byte list (models `bytes.decode()`, which raises on
invalid sequences — modelled as `none`). Rejects overlong encodings and
surrogates, as CPython does. -/
def utf8Decode : List Nat → Option (List Char)
  | [] => some []
  | b :: rest =>
    if b < 0x80 then
      (utf8Decode rest).map (Char.ofNat b :: ·)
    else if 0xC2 ≤ b && b ≤ 0xDF then
      match rest with
      | b2 :: rest2 =>
        if isCont b2 then
          (utf8Decode rest2).map (Char.ofNat (((b &&& 0x1F) <<< 6) ||| (b2 &&& 0x3F)) :: ·)
        else none
      | _ => none
    else if 0xE0 ≤ b && b ≤ 0xEF then
      match rest with
      | b2 :: b3 :: rest3 =>
        let lo2 := if b = 0xE0 then 0xA0 else 0x80
        let hi2 := if b = 0xED then 0x9F else 0xBF
        if lo2 ≤ b2 && b2 ≤ hi2 && isCont b3 then
          (utf8Decode rest3).map
            (Char.ofNat (((b &&& 0x0F) <<< 12) ||| ((b2 &&& 0x3F) <<< 6) ||| (b3 &&& 0x3F)) :: ·)
        else none
      | _ => none
    else if 0xF0 ≤ b && b ≤ 0xF4 then
      match rest with
      | b2 :: b3 :: b4 :: rest4 =>
        let lo2 := if b = 0xF0 then 0x90 else 0x80
        let hi2 := if b = 0xF4 then 0x8F else 0xBF
        if lo2 ≤ b2 && b2 ≤ hi2 && isCont b3 && isCont b4 then
          (utf8Decode rest4).map
            (Char.ofNat (((b &&& 0x07) <<< 18) ||| ((b2 &&& 0x3F) <<< 12) |||
                         ((b3 &&& 0x3F) <<< 6) ||| (b4 &&& 0x3F)) :: ·)
        else none
      | _ => none
    else none

/-- The urlsafe base64 alphabet (`base64.urlsafe_b64encode`). -/
def b64UrlAlphabet : List Char :=
  "ABCDEFGHIJKLMNOPQRSTUVWXYZabcdefghijklmnopqrstuvwxyz0123456789-_".data

/-- The standard base64 alphabet (`base64.b64decode`). -/
def b64StdAlphabet : List Char :=
  "ABCDEFGHIJKLMNOPQRSTUVWXYZabcdefghijklmnopqrstuvwxyz0123456789+/".data

/-- Encode a byte list in base64 over the given alphabet, with `=` padding. -/
def b64EncodeWith (alpha : List Char) : List Nat → List Char
  | [] => []
  | [b1] =>
      let n := b1 * 16
      [alpha.getD (n / 64) 'A', alpha.getD (n % 64) 'A', '=', '=']
  | [b1, b2] =>
      let n := (b1 * 256 + b2) * 4
      [alpha.getD (n / 4096) 'A', alpha.getD ((n / 64) % 64) 'A', alpha.getD (n % 64) 'A', '=']
  | b1 :: b2 :: b3 :: rest =>
      let n := (b1 * 256 + b2) * 256 + b3
      alpha.getD (n / 262144) 'A' :: alpha.getD ((n / 4096) % 64) 'A' ::
      alpha.getD ((n / 64) % 64) 'A' :: alpha.getD (n % 64) 'A' :: b64EncodeWith alpha rest

/-- `str.rstrip('=')`: drop trailing `=` characters. -/
def rstripEq (cs : List Char) : List Char :=
  (cs.reverse.dropWhile (· = '=')).reverse

/-- The PKCE challenge the token endpoint recomputes from a verifier:
`base64.urlsafe_b64encode(hashlib.sha256(code_verifier.encode()).digest()).decode().rstrip('=')`. -/
def pkceChallenge (verifier : String) : String :=
  String.mk (rstripEq (b64EncodeWith b64UrlAlphabet (sha256 (utf8Encode verifier))))

/-- Index of a char in the standard base64 alphabet. -/
def b64StdIndex (c : Char) : Option Nat :=
  b64StdAlphabet.indexOf? c

/-- Decode a run of base64 data characters (6-bit values) to bytes; a final
group of length 1 is rejected by the caller, so only 0, 2, 3 remain. -/
def b64DecodeGroups : List Nat → List Nat
  | v1 :: v2 :: v3 :: v4 :: rest =>
      let n := ((v1 * 64 + v2) * 64 + v3) * 64 + v4
      n / 65536 :: (n / 256) % 256 :: n % 256 :: b64DecodeGroups rest
  | [v1, v2] => [(v1 * 64 + v2) / 16]
  | [v1, v2, v3] =>
      let n := (v1 * 64 + v2) * 64 + v3
      [n / 1024, (n / 4) % 256]
  | _ => []

/-- Models `base64.b64decode(s)` for a Python `str` input: non-ASCII input
raises; characters outside the alphabet and `=` are discarded; the data
characters before the first `=` are decoded; a final group of 1 data
character, or a final group not completed by enough `=` padding, raises
`Incorrect padding`. Content after the padding is ignored (non-strict mode).
Failure (an exception in Python) is `none`. -/
def b64decode (s : String) : Option (List Nat) :=
  if s.data.all (fun c => c.toNat < 128) then
    let kept := s.data.filter (fun c => (b64StdIndex c).isSome || c = '=')
    let data := kept.takeWhile (· ≠ '=')
    let pads := ((kept.drop data.length).takeWhile (· = '=')).length
    let r := data.length % 4
    if r = 1 then none
    else if r ≠ 0 && pads < 4 - r then none
    else some (b64DecodeGroups (data.filterMap b64StdIndex))
  else none

/-- Python `s.split(":", 1)` unpacked into two variables: `some` of the parts
before/after the first `:`, or `none` (an unpacking `ValueError`) when there
is no colon. -/
def splitFirstColon (cs : List Char) : Option (List Char × List Char) :=
  match cs with
  | [] => none
  | c :: rest =>
      if c = ':' then some ([], rest)
      else (splitFirstColon rest).map (fun p => (c :: p.1, p.2))

/-- The decode pipeline of the Basic-auth branches:
`base64.b64decode(payload).decode()` then `split(":", 1)` into exactly two
parts. Any exception on the way is `none`. -/
def decodeBasic (payload : String) : Option (String × String) :=
  match b64decode payload with
  | none => none
  | some bytes =>
      match utf8Decode bytes with
      | none => none
      | some chars =>
          (splitFirstColon chars).map (fun p => (String.mk p.1, String.mk p.2))

/-! ### OAuth data model (`main.py` globals and environment) -/

/-- Environment-derived static credentials (`TOOL_API_KEY`, `MCP_CLIENT_ID`,
`MCP_CLIENT_SECRET`). -/
structure Env where
  TOOL_API_KEY : String
  MCP_CLIENT_ID : String
  MCP_CLIENT_SECRET : String
deriving Repr, DecidableEq

/-- A value stored in `registered_clients` (the constant `grant_types`,
`token_endpoint_auth_method` and `scopes` members are fixed values and
omitted; only fields read elsewhere or varying are modelled). -/
structure ClientData where
  client_id : String
  client_secret : String
  client_name : String
  created_at : Nat
deriving Repr, DecidableEq

/-- A value stored in `active_tokens`. -/
structure TokenData where
  client_id : String
  expires_at : Nat
  scope : String
deriving Repr, DecidableEq

/-- A value stored in `authorization_codes`. -/
structure AuthCodeData where
  client_id : String
  redirect_uri : String
  scope : String
  code_challenge : String
  code_challenge_method : String
  expires_at : Nat
deriving Repr, DecidableEq

/-- The three module-level mutable dictionaries of `main.py`. -/
structure ServerState where
  registered_clients : List (String × ClientData)
  active_tokens : List (String × TokenData)
  authorization_codes : List (String × AuthCodeData)
deriving Repr, DecidableEq

/-- Python truthiness of an optional form field (`None` and `""` are falsy). -/
def truthy : Option String → Bool
  | none => false
  | some s => !(s = "")

/-- `s.startswith(p)` combined with dropping the prefix (`s[len(p):]`). -/
def dropLit : List Char → List Char → Option (List Char)
  | [], s => some s
  | p :: ps, s =>
      match s with
      | [] => none
      | c :: cs => if c = p then dropLit ps cs else none

/-! ### `POST /oauth/register` (`dynamic_client_registration`) -/

/-- The JSON body returned by `dynamic_client_registration` (the constant
`grant_types`, `token_endpoint_auth_method` and `scope` members are fixed
strings and omitted from the model). -/
structure RegistrationResponse where
  client_id : String
  client_secret : String
  client_id_issued_at : Nat
deriving Repr, DecidableEq

/-- `dynamic_client_registration` on an already-parsed JSON object body.
`client_name` is the body's `client_name` member (`none` when absent;
`registration_request.get("client_name", "Unknown MCP Client")`); `tokA` and
`tokB` are the values drawn from `secrets.token_urlsafe(16)` / `(32)`. The
endpoint always succeeds on an object body: it builds no failure branch. -/
def dynamic_client_registration (st : ServerState) (now : Nat)
    (client_name : Option String) (tokA tokB : String) :
    RegistrationResponse × ServerState :=
  let client_id := "mcp-" ++ tokA
  let client_secret := tokB
  let entry : ClientData :=
    { client_id := client_id, client_secret := client_secret,
      client_name := client_name.getD "Unknown MCP Client", created_at := now }
  ({ client_id := client_id, client_secret := client_secret, client_id_issued_at := now },
   { st with registered_clients := insertStr client_id entry st.registered_clients })

/-! ### `verify_mcp_auth_with_dcr` -/

/-- Outcome of `verify_mcp_auth_with_dcr`: the four success shapes it
returns, or the `HTTPException(401)` it raises. -/
inductive AuthOutcome where
  | bearerStatic (token : String)
  | dcrToken (token : String)
  | basicStatic (username : String)
  | dcrBasic (username : String)
  | unauthorized
deriving Repr, DecidableEq

/-- `verify_mcp_auth_with_dcr(request)`: checks the `Authorization` header
against the static key, the DCR token store (evicting an expired token),
the static basic pair, then registered clients. Returns the outcome and the
(possibly updated) state. -/
def verify_mcp_auth_with_dcr (env : Env) (st : ServerState) (now : Nat)
    (auth_header : String) : AuthOutcome × ServerState :=
  match dropLit "Bearer ".data auth_header.data with
  | some tokChars =>
      let token := String.mk tokChars
      if env.TOOL_API_KEY ≠ "" ∧ token = env.TOOL_API_KEY then
        (.bearerStatic token, st)
      else
        match lookupStr token st.active_tokens with
        | some token_info =>
            if token_info.expires_at > now then
              (.dcrToken token, st)
            else
              (.unauthorized, { st with active_tokens := eraseStr token st.active_tokens })
        | none => (.unauthorized, st)
  | none =>
      match dropLit "Basic ".data auth_header.data with
      | some payload =>
          match decodeBasic (String.mk payload) with
          | some (client_id, client_secret) =>
              if env.MCP_CLIENT_ID ≠ "" ∧ env.MCP_CLIENT_SECRET ≠ "" ∧
                 client_id = env.MCP_CLIENT_ID ∧ client_secret = env.MCP_CLIENT_SECRET then
                (.basicStatic client_id, st)
              else
                match lookupStr client_id st.registered_clients with
                | some stored_client =>
                    if stored_client.client_secret = client_secret then
                      (.dcrBasic client_id, st)
                    else (.unauthorized, st)
                | none => (.unauthorized, st)
          | none => (.unauthorized, st)
      | none => (.unauthorized, st)

/-! ### `POST /oauth/token` (`oauth_token_endpoint`) -/

/-- Outcome of `oauth_token_endpoint`: the success JSON body, or the
`HTTPException` raised (status, detail). -/
inductive TokenOutcome where
  | ok (access_token : String) (token_type : String) (expires_in : Nat) (scope : String)
  | httpError (status : Nat) (detail : String)
deriving Repr, DecidableEq

/-- Issue the access token (tail of `oauth_token_endpoint`):
`access_token = "mcp_token_" + secrets.token_urlsafe(32)`, stored with
`expires_at = now + 3600`. -/
def issueAccessToken (st : ServerState) (now : Nat) (freshTok : String)
    (client_id : String) : TokenOutcome × ServerState :=
  let access_token := "mcp_token_" ++ freshTok
  let entry : TokenData :=
    { client_id := client_id, expires_at := now + 3600, scope := "mcp:tools mcp:resources" }
  (.ok access_token "Bearer" 3600 "mcp:tools mcp:resources",
   { st with active_tokens := insertStr access_token entry st.active_tokens })

/-- `oauth_token_endpoint`. Inputs: the parsed form fields (absent fields are
`none`; a form-parse failure makes `grant_type` `none`), the `Authorization`
header, the current time, and the token drawn from `secrets.token_urlsafe(32)`.
Returns the outcome and the updated state. -/
def oauth_token_endpoint (env : Env) (st : ServerState) (now : Nat) (freshTok : String)
    (grant_type code redirect_uri code_verifier : Option String)
    (auth_header : String) : TokenOutcome × ServerState :=
  if grant_type ≠ some "client_credentials" ∧ grant_type ≠ some "authorization_code" then
    (.httpError 400 "unsupported_grant_type", st)
  else if grant_type = some "authorization_code" then
    if ¬ truthy code ∨ ¬ truthy redirect_uri ∨ ¬ truthy code_verifier then
      (.httpError 400 "invalid_request", st)
    else
      let c := code.getD ""
      match lookupStr c st.authorization_codes with
      | none => (.httpError 400 "invalid_grant", st)
      | some auth_data =>
          if auth_data.expires_at < now then
            (.httpError 400 "invalid_grant",
             { st with authorization_codes := eraseStr c st.authorization_codes })
          else if auth_data.redirect_uri ≠ redirect_uri.getD "" then
            (.httpError 400 "invalid_grant", st)
          else if auth_data.code_challenge ≠ pkceChallenge (code_verifier.getD "") then
            (.httpError 400 "invalid_grant", st)
          else
            issueAccessToken
              { st with authorization_codes := eraseStr c st.authorization_codes }
              now freshTok auth_data.client_id
  else
    match dropLit "Basic ".data auth_header.data with
    | none => (.httpError 401 "invalid_client", st)
    | some payload =>
        match decodeBasic (String.mk payload) with
        | none => (.httpError 401 "invalid_client", st)
        | some (client_id, client_secret) =>
            let client_valid :=
              if env.MCP_CLIENT_ID ≠ "" ∧ env.MCP_CLIENT_SECRET ≠ "" ∧
                 client_id = env.MCP_CLIENT_ID ∧ client_secret = env.MCP_CLIENT_SECRET then
                true
              else
                match lookupStr client_id st.registered_clients with
                | some stored_client => stored_client.client_secret = client_secret
                | none => false
            if ¬ client_valid then (.httpError 401 "invalid_client", st)
            else issueAccessToken st now freshTok client_id

/-! ### `GET /oauth/authorize` (`oauth_authorize_endpoint`) -/

/-- Outcome of `oauth_authorize_endpoint`: a `RedirectResponse` to
`redirect_uri + "?" + urlencode(params)` (modelled structurally as the
target and the query-parameter list), or the raised `HTTPException`. -/
inductive AuthorizeOutcome where
  | redirect (target : String) (query : List (String × String))
  | httpError (status : Nat) (detail : String)
deriving Repr, DecidableEq

/-- The fixed redirect-URI allow-list `allowed_redirects`. -/
def allowed_redirects : List String :=
  ["https://claude.ai/api/mcp/auth_callback",
   "http://localhost:3000/auth/callback"]

/-- `oauth_authorize_endpoint`: checks `response_type`, then
`code_challenge_method`, then the client, then the redirect-URI allow-list;
on success stores a fresh code expiring at `now + 600` and redirects with
`code` and `state`. `freshCode` is the value drawn from
`secrets.token_urlsafe(32)`. -/
def oauth_authorize_endpoint (env : Env) (st : ServerState) (now : Nat) (freshCode : String)
    (response_type client_id redirect_uri scope state
     code_challenge code_challenge_method : String) :
    AuthorizeOutcome × ServerState :=
  if response_type ≠ "code" then
    (.redirect redirect_uri
      [("error", "unsupported_response_type"),
       ("error_description", "Only \x27code\x27 response type is supported"),
       ("state", state)], st)
  else if code_challenge_method ≠ "S256" then
    (.redirect redirect_uri
      [("error", "invalid_request"),
       ("error_description", "Only S256 code challenge method is supported"),
       ("state", state)], st)
  else if ¬ (client_id = env.MCP_CLIENT_ID ∨ (lookupStr client_id st.registered_clients).isSome) then
    (.redirect redirect_uri
      [("error", "invalid_client"),
       ("error_description", "Unknown client_id"),
       ("state", state)], st)
  else if ¬ redirect_uri ∈ allowed_redirects then
    (.httpError 400 "invalid_redirect_uri", st)
  else
    let auth_code := "auth_code_" ++ freshCode
    let entry : AuthCodeData :=
      { client_id := client_id, redirect_uri := redirect_uri, scope := scope,
        code_challenge := code_challenge, code_challenge_method := code_challenge_method,
        expires_at := now + 600 }
    (.redirect redirect_uri [("code", auth_code), ("state", state)],
     { st with authorization_codes := insertStr auth_code entry st.authorization_codes })

/-! ### JSON values and the JSON-RPC dispatcher (`mcp_server.py`) -/

/-- A JSON value (Python floats do not occur in the modelled protocol data,
so numbers are integers). -/
inductive Json where
  | null
  | bool (b : Bool)
  | num (n : Int)
  | str (s : String)
  | arr (xs : List Json)
  | obj (fields : List (String × Json))

mutual

/-- Python `repr` of a JSON value (used inside `str` of containers). -/
def pyRepr : Json → String
  | .null => "None"
  | .bool b => if b then "True" else "False"
  | .num n => toString n
  | .str s => "\x27" ++ s ++ "\x27"
  | .arr xs => "[" ++ pyReprList xs ++ "]"
  | .obj fs => "\x7b" ++ pyReprFields fs ++ "\x7d"

def pyReprList : List Json → String
  | [] => ""
  | [x] => pyRepr x
  | x :: y :: rest => pyRepr x ++ ", " ++ pyReprList (y :: rest)

def pyReprFields : List (String × Json) → String
  | [] => ""
  | [(k, v)] => "\x27" ++ k ++ "\x27: " ++ pyRepr v
  | (k, v) :: f :: rest => "\x27" ++ k ++ "\x27: " ++ pyRepr v ++ ", " ++ pyReprFields (f :: rest)

end

/-- Python `str` of a JSON value (`str(result)`): a string stays bare,
containers and scalars render as `repr`/`str` do. -/
def pyStr : Json → String
  | .str s => s
  | v => pyRepr v

/-- Escape a character for a JSON string literal. -/
def jsonEscape (c : Char) : String :=
  if c = '"' then "\\\"" else if c = '\\' then "\\\\" else String.mk [c]

mutual

/-- Textual JSON rendering of a value. Models `json.dumps(result, indent=2)`
as a rendering to text; the claims depend only on the result being the
value serialized to text, so the pretty-printed indentation of `indent=2`
is not reproduced. -/
def jsonDumps : Json → String
  | .null => "null"
  | .bool b => if b then "true" else "false"
  | .num n => toString n
  | .str s => "\"" ++ String.join (s.data.map jsonEscape) ++ "\""
  | .arr xs => "[" ++ jsonDumpsList xs ++ "]"
  | .obj fs => "\x7b" ++ jsonDumpsFields fs ++ "\x7d"

def jsonDumpsList : List Json → String
  | [] => ""
  | [x] => jsonDumps x
  | x :: y :: rest => jsonDumps x ++ ", " ++ jsonDumpsList (y :: rest)

def jsonDumpsFields : List (String × Json) → String
  | [] => ""
  | [(k, v)] => "\"" ++ k ++ "\": " ++ jsonDumps v
  | (k, v) :: f :: rest => "\"" ++ k ++ "\": " ++ jsonDumps v ++ ", " ++ jsonDumpsFields (f :: rest)

end

/-- Member lookup in a JSON object; `none` for non-objects. -/
def Json.getField (j : Json) (k : String) : Option Json :=
  match j with
  | .obj fields => lookupStr k fields
  | _ => none

/-- The validated fields of `JsonRpcRequest` (`mcp_types.py`): `id` is
`some` of a string or integer JSON value (`None`, explicit or by absence,
becomes `none`, which `model_dump(exclude_none=True)` later drops);
`params` is the members of the params object (`none` = absent or null). -/
structure ParsedRequest where
  id : Option Json
  method : String
  params : Option (List (String × Json))

/-- Pydantic validation `JsonRpcRequest(**request_data)`: `jsonrpc` defaults
to `"2.0"` and must equal it, `id` must be a string, integer or null,
`method` must be a string, `params` an object or null; any other shape
raises. The error message is modelled as a short description standing for
`str(e)`. -/
def validateJsonRpc : Json → Except String ParsedRequest
  | .obj fields => do
      match lookupStr "jsonrpc" fields with
      | none => pure ()
      | some (.str "2.0") => pure ()
      | some _ => throw "jsonrpc must be the literal 2.0"
      let id ← match lookupStr "id" fields with
        | none => pure none
        | some .null => pure none
        | some (.str s) => pure (some (Json.str s))
        | some (.num n) => pure (some (Json.num n))
        | some _ => throw "id must be a string, an integer or null"
      let method ← match lookupStr "method" fields with
        | some (.str m) => pure m
        | some _ => throw "method must be a string"
        | none => throw "method is required"
      let params ← match lookupStr "params" fields with
        | none => pure none
        | some .null => pure none
        | some (.obj fs) => pure (some fs)
        | some _ => throw "params must be an object"
      pure { id := id, method := method, params := params }
  | _ => .error "request body is not a mapping"

/-- `McpServer._create_success_response`:
`JsonRpcResponse(id=request_id, result=result).model_dump(exclude_none=True)`;
an `id` of `None` is dropped by `exclude_none`. -/
def createSuccessResponse (id : Option Json) (result : Json) : Json :=
  .obj ([("jsonrpc", .str "2.0")] ++
        (match id with | some i => [("id", i)] | none => []) ++
        [("result", result)])

/-- `McpServer._create_error_response`: the error member is
`JsonRpcError(code, message, data).model_dump(exclude_none=True)`. -/
def createErrorResponse (id : Option Json) (code : Int) (message : String)
    (data : Option Json) : Json :=
  .obj ([("jsonrpc", .str "2.0")] ++
        (match id with | some i => [("id", i)] | none => []) ++
        [("error", .obj ([("code", .num code), ("message", .str message)] ++
          (match data with | some d => [("data", d)] | none => [])))])

/-- What a tool handler call does: return a value, raise `HTTPException`, or
raise some other exception (with its `str(e)` message). -/
inductive ToolOutcome where
  | value (v : Json)
  | httpExc (status : Nat) (detail : String)
  | exc (msg : String)

/-- One registered tool: the `self.tools[name]` dict minus its redundant
`name` member, plus the `self.tool_handlers[name]` callable (the handler's
auth-credentials argument is the constant `None` at the `/mcp` endpoint and
is omitted). -/
structure ToolEntry where
  description : String
  inputSchema : Json
  handler : List (String × Json) → ToolOutcome

/-- The registry: `self.tools` / `self.tool_handlers`, keyed by tool name
(both dicts are updated together by `register_tool`). -/
def ToolRegistry := List (String × ToolEntry)

/-- `McpInitializeResult(...).model_dump()` with the fixed capabilities and
server identity of `_handle_initialize`. -/
def initializeResult : Json :=
  .obj [("protocolVersion", .str "2024-11-05"),
        ("capabilities", .obj [("tools", .obj [("listChanged", .bool true)]),
                               ("resources", .obj []),
                               ("prompts", .obj [])]),
        ("serverInfo", .obj [("name", .str "toolarr-mcp-server"),
                             ("version", .str "1.0.0")])]

/-- Pydantic validation of `McpCapabilities`: an object whose `tools`,
`resources`, `prompts` members, when present, are objects or null. -/
def validCapabilities : Json → Bool
  | .obj fs =>
      ["tools", "resources", "prompts"].all fun k =>
        match lookupStr k fs with
        | none => true
        | some .null => true
        | some (.obj _) => true
        | some _ => false
  | _ => false

/-- Pydantic validation of `McpInitializeParams`: `protocolVersion` a
string, `capabilities` valid, `clientInfo` an object. -/
def validInitializeParams (fs : List (String × Json)) : Bool :=
  (match lookupStr "protocolVersion" fs with | some (.str _) => true | _ => false) &&
  (match lookupStr "capabilities" fs with | some c => validCapabilities c | none => false) &&
  (match lookupStr "clientInfo" fs with | some (.obj _) => true | _ => false)

/-- `McpServer._handle_initialize`: validates the params when they are a
truthy dict (an absent or empty params dict skips validation), then returns
the fixed result; a validation failure is caught as `-32602 Invalid params`. -/
def handleInitialize (req : ParsedRequest) : Json :=
  match req.params with
  | none => createSuccessResponse req.id initializeResult
  | some [] => createSuccessResponse req.id initializeResult
  | some fs =>
      if validInitializeParams fs then createSuccessResponse req.id initializeResult
      else createErrorResponse req.id (-32602) "Invalid params"
             (some (.str "validation error for McpInitializeParams"))

/-- `McpServer._handle_list_tools`: `{"tools": [...]}` with each tool's
`{name, description, inputSchema}` dict, in registration order. -/
def toolsListResult (reg : ToolRegistry) : Json :=
  .obj [("tools", .arr (reg.map fun p =>
    .obj [("name", .str p.1), ("description", .str p.2.description),
          ("inputSchema", p.2.inputSchema)]))]

/-- `McpCallToolResult(content=[{"type": "text", "text": t}], isError=e)
.model_dump()`. -/
def callToolResult (text : String) (isError : Bool) : Json :=
  .obj [("content", .arr [.obj [("type", .str "text"), ("text", .str text)]]),
        ("isError", .bool isError)]

/-- Pydantic validation of `McpCallToolParams` combined with the falsy-params
default (`McpCallToolParams(name="")` when `request.params` is absent or
empty): yields the tool name and the arguments object's members. -/
def validateCallToolParams :
    Option (List (String × Json)) → Except String (String × Option (List (String × Json)))
  | none => .ok ("", none)
  | some [] => .ok ("", none)
  | some fs => do
      let name ← match lookupStr "name" fs with
        | some (.str n) => pure n
        | some _ => throw "name must be a string"
        | none => throw "name is required"
      let args ← match lookupStr "arguments" fs with
        | none => pure none
        | some .null => pure none
        | some (.obj afs) => pure (some afs)
        | some _ => throw "arguments must be an object"
      pure (name, args)

/-- The serialization of a normal tool result:
`json.dumps(result, indent=2) if isinstance(result, (dict, list)) else str(result)`. -/
def serializeToolValue (v : Json) : String :=
  match v with
  | .obj _ => jsonDumps v
  | .arr _ => jsonDumps v
  | other => pyStr other

/-- `McpServer._handle_call_tool`: malformed params are `-32602 Invalid
params`; an unregistered name is `-32602` with a tool-not-found message; a
registered handler is invoked with `params.arguments or {}`, and its
outcome is wrapped in a *success* response: a returned dict containing an
`"error"` key, a raised `HTTPException`, or any other raised exception
yield `isError: true` with a textual description, and a normal value yields
`isError: false` with the value serialized to text. -/
def handleCallTool (reg : ToolRegistry) (req : ParsedRequest) : Json :=
  match validateCallToolParams req.params with
  | .error e => createErrorResponse req.id (-32602) "Invalid params" (some (.str e))
  | .ok (name, args) =>
      match lookupStr name reg with
      | none =>
          createErrorResponse req.id (-32602) ("Tool \x27" ++ name ++ "\x27 not found") none
      | some entry =>
          match entry.handler (args.getD []) with
          | .value v =>
              match v with
              | .obj fs =>
                  match lookupStr "error" fs with
                  | some e =>
                      createSuccessResponse req.id (callToolResult ("Error: " ++ pyStr e) true)
                  | none =>
                      createSuccessResponse req.id (callToolResult (jsonDumps v) false)
              | other =>
                  createSuccessResponse req.id (callToolResult (serializeToolValue other) false)
          | .httpExc status detail =>
              createSuccessResponse req.id
                (callToolResult ("HTTP Error " ++ toString status ++ ": " ++ detail) true)
          | .exc msg =>
              createSuccessResponse req.id
                (callToolResult ("Tool execution error: " ++ msg) true)

/-- `McpServer.handle_jsonrpc_request`: a body failing
`JsonRpcRequest(**request_data)` validation is answered with `-32700`
("Parse error") and a `None` id; otherwise the request is dispatched by
method name. (The enclosing `except` producing `-32603` is unreachable in
the model because every handler is total, catching its own failures.) -/
def handle_jsonrpc_request (reg : ToolRegistry) (request_data : Json) : Json :=
  match validateJsonRpc request_data with
  | .error e => createErrorResponse none (-32700) "Parse error" (some (.str e))
  | .ok req =>
      match req.method with
      | "initialize" => handleInitialize req
      | "tools/list" => createSuccessResponse req.id (toolsListResult reg)
      | "tools/call" => handleCallTool reg req
      | "resources/list" => createSuccessResponse req.id (.obj [("resources", .arr [])])
      | "prompts/list" => createSuccessResponse req.id (.obj [("prompts", .arr [])])
      | "ping" => createSuccessResponse req.id (.obj [])
      | _ => createErrorResponse req.id (-32601) "Method not found" none

/-- The JSON-RPC part of the `/mcp` endpoint (`mcp_endpoint`), after the
auth gate: `request.json()` failing to parse (`none`) is answered with the
literal `-32700` dict of `main.py`, whose `id` member is an explicit null;
a parsed body is handed to the dispatcher. -/
def mcp_endpoint (reg : ToolRegistry) (parsed_body : Option Json) : Json :=
  match parsed_body with
  | none =>
      .obj [("jsonrpc", .str "2.0"), ("id", .null),
            ("error", .obj [("code", .num (-32700)), ("message", .str "Parse error")])]
  | some body => handle_jsonrpc_request reg body

/-- The error code carried by a JSON-RPC response, when it has one. -/
def responseErrorCode (resp : Json) : Option Json :=
  (resp.getField "error").bind (fun e => e.getField "code")

/-! ### Concrete fixtures used by witnesses and counterexamples -/

/-- A concrete static-credential environment. -/
def exEnv : Env :=
  { TOOL_API_KEY := "key123", MCP_CLIENT_ID := "toolarr-client", MCP_CLIENT_SECRET := "secret456" }

/-- A stored authorization code whose challenge matches no short verifier. -/
def exCodeData : AuthCodeData :=
  { client_id := "toolarr-client", redirect_uri := "https://claude.ai/api/mcp/auth_callback",
    scope := "mcp:tools", code_challenge := "ch", code_challenge_method := "S256",
    expires_at := 1000 }

/-- The same stored code, with the challenge matching verifier `"v"`. -/
def exCodeMatching : AuthCodeData :=
  { exCodeData with code_challenge := pkceChallenge "v" }

/-- A server state holding only the code `"c1" ↦ exCodeData`. -/
def exStore : ServerState :=
  { registered_clients := [], active_tokens := [], authorization_codes := [("c1", exCodeData)] }

/-- A server state holding only the code `"c1" ↦ exCodeMatching`. -/
def exStoreMatching : ServerState :=
  { registered_clients := [], active_tokens := [], authorization_codes := [("c1", exCodeMatching)] }

/-- A server state holding one expired token and one registered client. -/
def exTokStore : ServerState :=
  { registered_clients :=
      [("mcp-abc", { client_id := "mcp-abc", client_secret := "shh",
                     client_name := "Unknown MCP Client", created_at := 0 })],
    active_tokens :=
      [("tokX", { client_id := "toolarr-client", expires_at := 100,
                  scope := "mcp:tools mcp:resources" })],
    authorization_codes := [] }

/-! ## Supporting lemmas -/

theorem lookupStr_eq_none_of_not_mem {α : Type} (k : String) (l : List (String × α))
    (h : k ∉ l.map Prod.fst) : lookupStr k l = none := by
  induction l with
  | nil => rfl
  | cons hd tl ih =>
      simp only [List.map_cons, List.mem_cons, not_or] at h
      simp only [lookupStr]
      rw [if_neg (fun hc => h.1 hc.symm)]
      exact ih h.2

theorem lookupStr_eraseStr_self {α : Type} (k : String) (l : List (String × α))
    (h : (l.map Prod.fst).Nodup) : lookupStr k (eraseStr k l) = none := by
  induction l with
  | nil => rfl
  | cons hd tl ih =>
      obtain ⟨hhd, htl⟩ := List.nodup_cons.mp h
      by_cases hk : hd.1 = k
      · simp only [eraseStr, if_pos hk]
        exact lookupStr_eq_none_of_not_mem k tl (hk ▸ hhd)
      · simp only [eraseStr, if_neg hk, lookupStr]
        exact ih htl

theorem dropLit_self (p s : List Char) : dropLit p (p ++ s) = some s := by
  induction p with
  | nil => simp [dropLit]
  | cons c cs ih => simp [dropLit, ih]

theorem dropLit_bearer_of_basic (l : List Char) :
    dropLit ['B', 'e', 'a', 'r', 'e', 'r', ' '] (['B', 'a', 's', 'i', 'c', ' '] ++ l) =
      none := by
  simp [dropLit]

theorem string_mk_data (s : String) : String.mk s.data = s := rfl

theorem string_append_left_inj (p : String) {a b : String}
    (h : p ++ a = p ++ b) : a = b := by
  apply String.ext
  have := congrArg String.data h
  simp only [String.data_append] at this
  exact List.append_cancel_left this

/-- Reduction of the token endpoint on the authorization-code grant with all
three form fields presented (non-empty). -/
theorem token_endpoint_auth_code_eq (env : Env) (st : ServerState) (now : Nat)
    (ft c r v ah : String) (hc : c ≠ "") (hr : r ≠ "") (hv : v ≠ "") :
    oauth_token_endpoint env st now ft (some "authorization_code")
        (some c) (some r) (some v) ah =
      (match lookupStr c st.authorization_codes with
       | none => (.httpError 400 "invalid_grant", st)
       | some auth_data =>
           if auth_data.expires_at < now then
             (.httpError 400 "invalid_grant",
              { st with authorization_codes := eraseStr c st.authorization_codes })
           else if auth_data.redirect_uri ≠ r then
             (.httpError 400 "invalid_grant", st)
           else if auth_data.code_challenge ≠ pkceChallenge v then
             (.httpError 400 "invalid_grant", st)
           else
             issueAccessToken
               { st with authorization_codes := eraseStr c st.authorization_codes }
               now ft auth_data.client_id) := by
  simp [oauth_token_endpoint, truthy, hc, hr, hv]

/-- Reduction of the auth verifier on a `Bearer` authorization header. -/
theorem verify_bearer_eq (env : Env) (st : ServerState) (now : Nat) (t : String) :
    verify_mcp_auth_with_dcr env st now ("Bearer " ++ t) =
      (if env.TOOL_API_KEY ≠ "" ∧ t = env.TOOL_API_KEY then (.bearerStatic t, st)
       else
         match lookupStr t st.active_tokens with
         | some info =>
             if info.expires_at > now then (.dcrToken t, st)
             else (.unauthorized, { st with active_tokens := eraseStr t st.active_tokens })
         | none => (.unauthorized, st)) := by
  simp only [verify_mcp_auth_with_dcr, String.data_append, dropLit_self]

/-- Reduction of the auth verifier on a `Basic` authorization header. -/
theorem verify_basic_eq (env : Env) (st : ServerState) (now : Nat) (p : String) :
    verify_mcp_auth_with_dcr env st now ("Basic " ++ p) =
      (match decodeBasic p with
       | some (cid, cs) =>
           if env.MCP_CLIENT_ID ≠ "" ∧ env.MCP_CLIENT_SECRET ≠ "" ∧
              cid = env.MCP_CLIENT_ID ∧ cs = env.MCP_CLIENT_SECRET then
             (.basicStatic cid, st)
           else
             match lookupStr cid st.registered_clients with
             | some entry =>
                 if entry.client_secret = cs then (.dcrBasic cid, st)
                 else (.unauthorized, st)
             | none => (.unauthorized, st)
       | none => (.unauthorized, st)) := by
  simp only [verify_mcp_auth_with_dcr, String.data_append, dropLit_bearer_of_basic,
    dropLit_self]

/-! ## Claims -/

/-- C1 (amended): a redemption attempt matching an existing code deletes the
code when the attempt succeeds or when the code is expired; an attempt
failing on the redirect-URI check or the PKCE check leaves the store
unchanged, so the code stays redeemable. After a successful redemption the
code is gone and a second redemption fails with `invalid_grant`. -/
theorem auth_code_deletion_on_redemption (env : Env) (st : ServerState) (now : Nat)
    (ft c r v ah : String) (d : AuthCodeData)
    (hfind : lookupStr c st.authorization_codes = some d)
    (hnodup : (st.authorization_codes.map Prod.fst).Nodup)
    (hc : c ≠ "") (hr : r ≠ "") (hv : v ≠ "") :
    (d.expires_at < now →
       oauth_token_endpoint env st now ft (some "authorization_code")
           (some c) (some r) (some v) ah =
         (.httpError 400 "invalid_grant",
          { st with authorization_codes := eraseStr c st.authorization_codes })) ∧
    (¬ d.expires_at < now → d.redirect_uri ≠ r →
       oauth_token_endpoint env st now ft (some "authorization_code")
           (some c) (some r) (some v) ah =
         (.httpError 400 "invalid_grant", st)) ∧
    (¬ d.expires_at < now → d.redirect_uri = r → d.code_challenge ≠ pkceChallenge v →
       oauth_token_endpoint env st now ft (some "authorization_code")
           (some c) (some r) (some v) ah =
         (.httpError 400 "invalid_grant", st)) ∧
    (¬ d.expires_at < now → d.redirect_uri = r → d.code_challenge = pkceChallenge v →
       (oauth_token_endpoint env st now ft (some "authorization_code")
           (some c) (some r) (some v) ah).2.authorization_codes =
         eraseStr c st.authorization_codes ∧
       ∀ ft2 r2 v2 ah2, r2 ≠ "" → v2 ≠ "" →
         oauth_token_endpoint env
             (oauth_token_endpoint env st now ft (some "authorization_code")
               (some c) (some r) (some v) ah).2
             now ft2 (some "authorization_code") (some c) (some r2) (some v2) ah2 =
           (.httpError 400 "invalid_grant",
            (oauth_token_endpoint env st now ft (some "authorization_code")
              (some c) (some r) (some v) ah).2)) := by
  refine ⟨?_, ?_, ?_, ?_⟩
  · intro hexp
    rw [token_endpoint_auth_code_eq env st now ft c r v ah hc hr hv, hfind]
    simp [hexp]
  · intro hexp hred
    rw [token_endpoint_auth_code_eq env st now ft c r v ah hc hr hv, hfind]
    simp [hexp, hred]
  · intro hexp hred hch
    rw [token_endpoint_auth_code_eq env st now ft c r v ah hc hr hv, hfind]
    simp [hexp, hred, hch]
  · intro hexp hred hch
    have hfirst : oauth_token_endpoint env st now ft (some "authorization_code")
        (some c) (some r) (some v) ah =
          issueAccessToken
            { st with authorization_codes := eraseStr c st.authorization_codes }
            now ft d.client_id := by
      rw [token_endpoint_auth_code_eq env st now ft c r v ah hc hr hv, hfind]
      simp [hexp, hred, hch]
    rw [hfirst]
    refine ⟨rfl, ?_⟩
    intro ft2 r2 v2 ah2 hr2 hv2
    rw [token_endpoint_auth_code_eq env _ now ft2 c r2 v2 ah2 hc hr2 hv2]
    have hgone : lookupStr c (issueAccessToken
        { st with authorization_codes := eraseStr c st.authorization_codes }
        now ft d.client_id).2.authorization_codes = none :=
      lookupStr_eraseStr_self c st.authorization_codes hnodup
    rw [hgone]

/-- Witness for C1 (amended): a concrete attempt with a wrong redirect URI
fails with `invalid_grant` and leaves the store unchanged. -/
theorem auth_code_deletion_on_redemption_witness :
    oauth_token_endpoint exEnv exStore 500 "t" (some "authorization_code")
        (some "c1") (some "evil") (some "v") "" =
      (.httpError 400 "invalid_grant", exStore) :=
  (auth_code_deletion_on_redemption exEnv exStore 500 "t" "c1" "evil" "v" ""
      exCodeData rfl (by decide) (by decide) (by decide) (by decide)).2.1
    (by decide) (by decide)

/-- Counterexample to C1 as stated: on a matching code, a failed redemption
attempt (wrong `redirect_uri`) does not delete the code — it is still
stored afterwards, and a second redemption of the same code with the
correct redirect URI and verifier succeeds rather than failing with
`invalid_grant`. -/
theorem auth_code_redeemable_after_failed_attempt :
    (oauth_token_endpoint exEnv exStoreMatching 500 "t" (some "authorization_code")
        (some "c1") (some "evil") (some "v") "").1 =
      .httpError 400 "invalid_grant" ∧
    lookupStr "c1"
        (oauth_token_endpoint exEnv exStoreMatching 500 "t" (some "authorization_code")
          (some "c1") (some "evil") (some "v") "").2.authorization_codes =
      some exCodeMatching ∧
    (oauth_token_endpoint exEnv
        (oauth_token_endpoint exEnv exStoreMatching 500 "t" (some "authorization_code")
          (some "c1") (some "evil") (some "v") "").2
        500 "t2" (some "authorization_code") (some "c1")
        (some "https://claude.ai/api/mcp/auth_callback") (some "v") "").1 =
      .ok "mcp_token_t2" "Bearer" 3600 "mcp:tools mcp:resources" :=
  ⟨rfl, rfl, rfl⟩

/-- C2: for a stored, unexpired code presented with its stored redirect URI
and a presented (non-empty) verifier, the grant succeeds (issuing a token)
exactly when `base64url(sha256(codeVerifier))` with padding stripped equals
the recorded `codeChallenge` as a string; any other verifier fails with
HTTP 400 `invalid_grant`. -/
theorem pkce_verifier_exact_match (env : Env) (st : ServerState) (now : Nat)
    (ft c r v ah : String) (d : AuthCodeData)
    (hfind : lookupStr c st.authorization_codes = some d)
    (hexp : ¬ d.expires_at < now) (hred : d.redirect_uri = r)
    (hc : c ≠ "") (hr : r ≠ "") (hv : v ≠ "") :
    oauth_token_endpoint env st now ft (some "authorization_code")
        (some c) (some r) (some v) ah =
      (if d.code_challenge = pkceChallenge v then
         (.ok ("mcp_token_" ++ ft) "Bearer" 3600 "mcp:tools mcp:resources",
          { registered_clients := st.registered_clients,
            active_tokens :=
              insertStr ("mcp_token_" ++ ft)
                ⟨d.client_id, now + 3600, "mcp:tools mcp:resources"⟩ st.active_tokens,
            authorization_codes := eraseStr c st.authorization_codes })
       else (.httpError 400 "invalid_grant", st)) := by
  rw [token_endpoint_auth_code_eq env st now ft c r v ah hc hr hv, hfind]
  by_cases hch : d.code_challenge = pkceChallenge v
  · simp [hexp, hred, hch, issueAccessToken]
  · simp [hexp, hred, hch]

/-- Witness for C2: a stored challenge that is not the hash of the presented
verifier, at concrete inputs. -/
theorem pkce_verifier_exact_match_witness :
    oauth_token_endpoint exEnv exStore 500 "t" (some "authorization_code")
        (some "c1") (some "https://claude.ai/api/mcp/auth_callback") (some "v") "" =
      (if exCodeData.code_challenge = pkceChallenge "v" then
         (.ok ("mcp_token_" ++ "t") "Bearer" 3600 "mcp:tools mcp:resources",
          { registered_clients := exStore.registered_clients,
            active_tokens :=
              insertStr ("mcp_token_" ++ "t")
                ⟨exCodeData.client_id, 500 + 3600, "mcp:tools mcp:resources"⟩
                exStore.active_tokens,
            authorization_codes := eraseStr "c1" exStore.authorization_codes })
       else (.httpError 400 "invalid_grant", exStore)) :=
  pkce_verifier_exact_match exEnv exStore 500 "t" "c1"
    "https://claude.ai/api/mcp/auth_callback" "v" "" exCodeData rfl
    (by decide) rfl (by decide) (by decide) (by decide)

/-- C5: a bearer token other than the static key is accepted from the token
store only when present with `expiresAt > now` (strict); a present but
expired token is deleted from the store as a side effect and the request is
rejected, so an expired token is never accepted while it still occupies
storage. -/
theorem token_store_lazy_expiry (env : Env) (st : ServerState) (now : Nat)
    (t : String) (hstatic : t ≠ env.TOOL_API_KEY) :
    (∀ info, lookupStr t st.active_tokens = some info →
       (info.expires_at > now →
          verify_mcp_auth_with_dcr env st now ("Bearer " ++ t) = (.dcrToken t, st)) ∧
       (¬ info.expires_at > now →
          verify_mcp_auth_with_dcr env st now ("Bearer " ++ t) =
            (.unauthorized, { st with active_tokens := eraseStr t st.active_tokens }) ∧
          ((st.active_tokens.map Prod.fst).Nodup →
             lookupStr t
               (verify_mcp_auth_with_dcr env st now ("Bearer " ++ t)).2.active_tokens =
               none))) ∧
    (lookupStr t st.active_tokens = none →
       verify_mcp_auth_with_dcr env st now ("Bearer " ++ t) = (.unauthorized, st)) := by
  have hne : ¬ (env.TOOL_API_KEY ≠ "" ∧ t = env.TOOL_API_KEY) := fun h => hstatic h.2
  constructor
  · intro info hfind
    constructor
    · intro hvalid
      rw [verify_bearer_eq, if_neg hne, hfind]
      simp [hvalid]
    · intro hexp
      have hres : verify_mcp_auth_with_dcr env st now ("Bearer " ++ t) =
          (.unauthorized, { st with active_tokens := eraseStr t st.active_tokens }) := by
        rw [verify_bearer_eq, if_neg hne, hfind]
        simp [hexp]
      refine ⟨hres, ?_⟩
      intro hnodup
      rw [hres]
      exact lookupStr_eraseStr_self t st.active_tokens hnodup
  · intro hfind
    rw [verify_bearer_eq, if_neg hne, hfind]

/-- Witness for C5: a concrete expired token is evicted and rejected. -/
theorem token_store_lazy_expiry_witness :
    verify_mcp_auth_with_dcr exEnv exTokStore 500 ("Bearer " ++ "tokX") =
      (.unauthorized, { exTokStore with active_tokens := eraseStr "tokX" exTokStore.active_tokens }) :=
  (((token_store_lazy_expiry exEnv exTokStore 500 "tokX" (by decide)).1
      ⟨"toolarr-client", 100, "mcp:tools mcp:resources"⟩ rfl).2 (by decide)).1

/-- C6: the verifier checks, in order with first match winning: static
bearer key, live token-store entry, static basic pair, registered-client
basic pair; otherwise — including a basic payload that fails to decode —
it is the same `unauthorized` failure, and all comparisons are exact
equality (a registered client with a different secret is rejected). -/
theorem auth_verifier_first_match_order (env : Env) (st : ServerState) (now : Nat)
    (hk : env.TOOL_API_KEY ≠ "") (hid : env.MCP_CLIENT_ID ≠ "")
    (hsec : env.MCP_CLIENT_SECRET ≠ "") :
    (verify_mcp_auth_with_dcr env st now ("Bearer " ++ env.TOOL_API_KEY) =
       (.bearerStatic env.TOOL_API_KEY, st)) ∧
    (∀ t info, t ≠ env.TOOL_API_KEY →
       lookupStr t st.active_tokens = some info → info.expires_at > now →
       verify_mcp_auth_with_dcr env st now ("Bearer " ++ t) = (.dcrToken t, st)) ∧
    (∀ p, decodeBasic p = some (env.MCP_CLIENT_ID, env.MCP_CLIENT_SECRET) →
       verify_mcp_auth_with_dcr env st now ("Basic " ++ p) =
         (.basicStatic env.MCP_CLIENT_ID, st)) ∧
    (∀ p cid cs entry, decodeBasic p = some (cid, cs) →
       ¬ (cid = env.MCP_CLIENT_ID ∧ cs = env.MCP_CLIENT_SECRET) →
       lookupStr cid st.registered_clients = some entry →
       verify_mcp_auth_with_dcr env st now ("Basic " ++ p) =
         (if entry.client_secret = cs then (.dcrBasic cid, st) else (.unauthorized, st))) ∧
    (∀ p cid cs, decodeBasic p = some (cid, cs) →
       ¬ (cid = env.MCP_CLIENT_ID ∧ cs = env.MCP_CLIENT_SECRET) →
       lookupStr cid st.registered_clients = none →
       verify_mcp_auth_with_dcr env st now ("Basic " ++ p) = (.unauthorized, st)) ∧
    (∀ p, decodeBasic p = none →
       verify_mcp_auth_with_dcr env st now ("Basic " ++ p) = (.unauthorized, st)) := by
  refine ⟨?_, ?_, ?_, ?_, ?_, ?_⟩
  · rw [verify_bearer_eq, if_pos ⟨hk, rfl⟩]
  · intro t info hstatic hfind hvalid
    rw [verify_bearer_eq, if_neg (fun h => hstatic h.2), hfind]
    simp [hvalid]
  · intro p hdec
    rw [verify_basic_eq, hdec]
    simp [hid, hsec]
  · intro p cid cs entry hdec hnstat hfind
    rw [verify_basic_eq, hdec]
    simp only []
    rw [if_neg (fun h => hnstat ⟨h.2.2.1, h.2.2.2⟩), hfind]
  · intro p cid cs hdec hnstat hfind
    rw [verify_basic_eq, hdec]
    simp only []
    rw [if_neg (fun h => hnstat ⟨h.2.2.1, h.2.2.2⟩), hfind]
  · intro p hdec
    rw [verify_basic_eq, hdec]

/-- Witness for C6: a registered client whose presented secret differs from
the stored one by one character is rejected. -/
theorem auth_verifier_first_match_order_witness :
    verify_mcp_auth_with_dcr exEnv exTokStore 500 ("Basic " ++ "bWNwLWFiYzpzaGk=") =
      (if ("shh" : String) = "shi" then
         (.dcrBasic "mcp-abc", exTokStore)
       else (.unauthorized, exTokStore)) :=
  (auth_verifier_first_match_order exEnv exTokStore 500 (by decide) (by decide)
      (by decide)).2.2.2.1 "bWNwLWFiYzpzaGk=" "mcp-abc" "shi"
    ⟨"mcp-abc", "shh", "Unknown MCP Client", 0⟩ rfl (by decide) rfl

/-! Response-shape lemmas for the dispatcher claims. -/

theorem responseErrorCode_createSuccess (id : Option Json) (r : Json) :
    responseErrorCode (createSuccessResponse id r) = none := by
  cases id <;> rfl

theorem responseErrorCode_createError (id : Option Json) (c : Int) (m : String)
    (dta : Option Json) :
    responseErrorCode (createErrorResponse id c m dta) = some (.num c) := by
  cases id <;> cases dta <;> rfl

theorem getField_error_createSuccess (id : Option Json) (r : Json) :
    (createSuccessResponse id r).getField "error" = none := by
  cases id <;> rfl

theorem response_shape_success (r : Json) :
    (createSuccessResponse none r).getField "id" = none ∧
    ((∃ x, (createSuccessResponse none r).getField "result" = some x) ∨
     (∃ e, (createSuccessResponse none r).getField "error" = some e)) :=
  ⟨rfl, Or.inl ⟨r, rfl⟩⟩

theorem response_shape_error (c : Int) (m : String) (dta : Option Json) :
    (createErrorResponse none c m dta).getField "id" = none ∧
    ((∃ x, (createErrorResponse none c m dta).getField "result" = some x) ∨
     (∃ e, (createErrorResponse none c m dta).getField "error" = some e)) := by
  cases dta
  · exact ⟨rfl, Or.inr ⟨_, rfl⟩⟩
  · exact ⟨rfl, Or.inr ⟨_, rfl⟩⟩

theorem handleInitialize_code (req : ParsedRequest) :
    responseErrorCode (handleInitialize req) ≠ some (.num (-32600)) := by
  simp only [handleInitialize]
  repeat' split
  all_goals simp [responseErrorCode_createSuccess, responseErrorCode_createError]

theorem handleCallTool_code (reg : ToolRegistry) (req : ParsedRequest) :
    responseErrorCode (handleCallTool reg req) ≠ some (.num (-32600)) := by
  simp only [handleCallTool]
  repeat' split
  all_goals simp [responseErrorCode_createSuccess, responseErrorCode_createError]

theorem handleInitialize_resp (req : ParsedRequest) (h : req.id = none) :
    (handleInitialize req).getField "id" = none ∧
    ((∃ r, (handleInitialize req).getField "result" = some r) ∨
     (∃ e, (handleInitialize req).getField "error" = some e)) := by
  obtain ⟨id, m, p⟩ := req
  simp only at h
  subst h
  simp only [handleInitialize]
  repeat' split
  all_goals first
    | exact response_shape_success _
    | exact response_shape_error _ _ _

theorem handleCallTool_resp (reg : ToolRegistry) (req : ParsedRequest)
    (h : req.id = none) :
    (handleCallTool reg req).getField "id" = none ∧
    ((∃ r, (handleCallTool reg req).getField "result" = some r) ∨
     (∃ e, (handleCallTool reg req).getField "error" = some e)) := by
  obtain ⟨id, m, p⟩ := req
  simp only at h
  subst h
  simp only [handleCallTool]
  repeat' split
  all_goals first
    | exact response_shape_success _
    | exact response_shape_error _ _ _

/-- C3 (amended): a body that parses as JSON but fails shape validation is
answered by the dispatcher with error code `-32700` ("Parse error") and the
`id` member omitted — the same taxonomy entry as an unparseable body — not
with `-32600`; indeed the dispatcher never produces `-32600` for any body. -/
theorem invalid_shape_is_parse_error (reg : ToolRegistry) (body : Json) (e : String) :
    (validateJsonRpc body = .error e →
       handle_jsonrpc_request reg body =
         createErrorResponse none (-32700) "Parse error" (some (.str e)) ∧
       (handle_jsonrpc_request reg body).getField "id" = none) ∧
    responseErrorCode (handle_jsonrpc_request reg body) ≠ some (.num (-32600)) := by
  constructor
  · intro hval
    have h : handle_jsonrpc_request reg body =
        createErrorResponse none (-32700) "Parse error" (some (.str e)) := by
      simp [handle_jsonrpc_request, hval]
    exact ⟨h, by rw [h]; rfl⟩
  · cases hval : validateJsonRpc body with
    | error e' =>
        simp [handle_jsonrpc_request, hval, responseErrorCode_createError]
    | ok req =>
        simp only [handle_jsonrpc_request, hval]
        split
        · exact handleInitialize_code _
        · simp [responseErrorCode_createSuccess]
        · exact handleCallTool_code _ _
        · simp [responseErrorCode_createSuccess]
        · simp [responseErrorCode_createSuccess]
        · simp [responseErrorCode_createSuccess]
        · simp [responseErrorCode_createError]

/-- Witness for C3 (amended): a shape-invalid body (no `method`) with a
parseable id gets `-32700` and no id member. -/
theorem invalid_shape_is_parse_error_witness :
    handle_jsonrpc_request []
        (.obj [("jsonrpc", .str "2.0"), ("id", .num 1)]) =
      createErrorResponse none (-32700) "Parse error"
        (some (.str "method is required")) ∧
    (handle_jsonrpc_request []
        (.obj [("jsonrpc", .str "2.0"), ("id", .num 1)])).getField "id" = none :=
  (invalid_shape_is_parse_error [] (.obj [("jsonrpc", .str "2.0"), ("id", .num 1)])
      "method is required").1 rfl

/-- Counterexample to C3 as stated: a body with `jsonrpc == "2.0"`, a
parseable id `1` and a missing `method` is answered with `-32700`, not
`-32600`, and the id is dropped rather than preserved. -/
theorem invalid_shape_counterexample :
    responseErrorCode (handle_jsonrpc_request []
        (.obj [("jsonrpc", .str "2.0"), ("id", .num 1), ("method", .num 5)])) =
      some (.num (-32700)) ∧
    (handle_jsonrpc_request []
        (.obj [("jsonrpc", .str "2.0"), ("id", .num 1), ("method", .num 5)])).getField
        "id" = none :=
  ⟨rfl, rfl⟩

/-- C4 (amended): a request with no id (a notification) is still processed,
and the dispatcher does emit a response body for it — a normal response
object whose `id` member is omitted (`exclude_none` drops the `None` id)
and which carries a `result` or `error` member. -/
theorem notification_gets_response (reg : ToolRegistry) (body : Json)
    (req : ParsedRequest) (hval : validateJsonRpc body = .ok req)
    (hid : req.id = none) :
    (handle_jsonrpc_request reg body).getField "id" = none ∧
    ((∃ r, (handle_jsonrpc_request reg body).getField "result" = some r) ∨
     (∃ e, (handle_jsonrpc_request reg body).getField "error" = some e)) := by
  obtain ⟨id, method, params⟩ := req
  simp only at hid
  subst hid
  simp only [handle_jsonrpc_request, hval]
  split
  · exact handleInitialize_resp _ rfl
  · exact response_shape_success _
  · exact handleCallTool_resp _ _ rfl
  · exact response_shape_success _
  · exact response_shape_success _
  · exact response_shape_success _
  · exact response_shape_error _ _ _

/-- Witness for C4 (amended): an id-less `ping` gets a response with no id. -/
theorem notification_gets_response_witness :
    (handle_jsonrpc_request []
        (.obj [("jsonrpc", .str "2.0"), ("method", .str "ping")])).getField "id" =
      none :=
  (notification_gets_response [] (.obj [("jsonrpc", .str "2.0"), ("method", .str "ping")])
      ⟨none, "ping", none⟩ rfl rfl).1

/-- Counterexample to C4 as stated: an id-less `ping` request — a
notification — is answered with the non-empty response body
`{"jsonrpc": "2.0", "result": {}}`, so the dispatcher does emit a response
body for notifications. -/
theorem notification_response_emitted :
    handle_jsonrpc_request []
        (.obj [("jsonrpc", .str "2.0"), ("method", .str "ping")]) =
      .obj [("jsonrpc", .str "2.0"), ("result", .obj [])] :=
  rfl

/-- C7: for a `tools/call` on a registered tool, a failure raised by the
handler (`HTTPException` or any exception) or returned by it (a dict with
an `"error"` key) is wrapped in a *successful* JSON-RPC response — no
`error` member — whose result has `isError: true` and a textual
description; a normal result yields `isError: false` with the value
serialized to text; and a name missing from the registry is answered with
JSON-RPC error `-32602` and a tool-not-found message. -/
theorem tools_call_error_wrapping (reg : ToolRegistry) (id : Int) (name : String)
    (argfs : List (String × Json)) :
    (∀ entry, lookupStr name reg = some entry →
       (∀ msg, entry.handler argfs = .exc msg →
          handle_jsonrpc_request reg
              (.obj [("jsonrpc", .str "2.0"), ("id", .num id),
                     ("method", .str "tools/call"),
                     ("params", .obj [("name", .str name),
                                      ("arguments", .obj argfs)])]) =
            createSuccessResponse (some (.num id))
              (callToolResult ("Tool execution error: " ++ msg) true) ∧
          (handle_jsonrpc_request reg
              (.obj [("jsonrpc", .str "2.0"), ("id", .num id),
                     ("method", .str "tools/call"),
                     ("params", .obj [("name", .str name),
                                      ("arguments", .obj argfs)])])).getField
              "error" = none) ∧
       (∀ status detail, entry.handler argfs = .httpExc status detail →
          handle_jsonrpc_request reg
              (.obj [("jsonrpc", .str "2.0"), ("id", .num id),
                     ("method", .str "tools/call"),
                     ("params", .obj [("name", .str name),
                                      ("arguments", .obj argfs)])]) =
            createSuccessResponse (some (.num id))
              (callToolResult ("HTTP Error " ++ toString status ++ ": " ++ detail)
                true)) ∧
       (∀ fs ev, entry.handler argfs = .value (.obj fs) →
          lookupStr "error" fs = some ev →
          handle_jsonrpc_request reg
              (.obj [("jsonrpc", .str "2.0"), ("id", .num id),
                     ("method", .str "tools/call"),
                     ("params", .obj [("name", .str name),
                                      ("arguments", .obj argfs)])]) =
            createSuccessResponse (some (.num id))
              (callToolResult ("Error: " ++ pyStr ev) true)) ∧
       (∀ v, entry.handler argfs = .value v →
          (∀ fs, v = .obj fs → lookupStr "error" fs = none) →
          handle_jsonrpc_request reg
              (.obj [("jsonrpc", .str "2.0"), ("id", .num id),
                     ("method", .str "tools/call"),
                     ("params", .obj [("name", .str name),
                                      ("arguments", .obj argfs)])]) =
            createSuccessResponse (some (.num id))
              (callToolResult (serializeToolValue v) false))) ∧
    (lookupStr name reg = none →
       handle_jsonrpc_request reg
           (.obj [("jsonrpc", .str "2.0"), ("id", .num id),
                  ("method", .str "tools/call"),
                  ("params", .obj [("name", .str name),
                                   ("arguments", .obj argfs)])]) =
         createErrorResponse (some (.num id)) (-32602)
           ("Tool \x27" ++ name ++ "\x27 not found") none) := by
  have hstep : handle_jsonrpc_request reg
      (.obj [("jsonrpc", .str "2.0"), ("id", .num id),
             ("method", .str "tools/call"),
             ("params", .obj [("name", .str name), ("arguments", .obj argfs)])]) =
        handleCallTool reg
          ⟨some (.num id), "tools/call",
           some [("name", .str name), ("arguments", .obj argfs)]⟩ := rfl
  have hparams : validateCallToolParams
      (some [("name", Json.str name), ("arguments", Json.obj argfs)]) =
        .ok (name, some argfs) := rfl
  refine ⟨?_, ?_⟩
  · intro entry hfind
    refine ⟨?_, ?_, ?_, ?_⟩
    · intro msg hexc
      have h1 : handle_jsonrpc_request reg
          (.obj [("jsonrpc", .str "2.0"), ("id", .num id),
                 ("method", .str "tools/call"),
                 ("params", .obj [("name", .str name), ("arguments", .obj argfs)])]) =
            createSuccessResponse (some (.num id))
              (callToolResult ("Tool execution error: " ++ msg) true) := by
        simp only [hstep, handleCallTool, hparams, hfind, Option.getD_some, hexc]
      exact ⟨h1, by rw [h1]; exact getField_error_createSuccess _ _⟩
    · intro status detail hexc
      simp only [hstep, handleCallTool, hparams, hfind, Option.getD_some, hexc]
    · intro fs ev hval herr
      simp only [hstep, handleCallTool, hparams, hfind, Option.getD_some, hval, herr]
    · intro v hval hnoerr
      simp only [hstep, handleCallTool, hparams, hfind, Option.getD_some, hval]
      cases v with
      | obj fs => simp [hnoerr fs rfl, serializeToolValue]
      | null => rfl
      | bool b => rfl
      | num n => rfl
      | str s => rfl
      | arr xs => rfl
  · intro hfind
    simp only [hstep, handleCallTool, hparams, hfind]

/-- Witness for C7: a registered tool whose handler raises is wrapped in a
successful response with `isError: true`. -/
theorem tools_call_error_wrapping_witness :
    handle_jsonrpc_request
        [("boom", ⟨"a tool that raises", .obj [],
            fun _ => .exc "kaput"⟩)]
        (.obj [("jsonrpc", .str "2.0"), ("id", .num 9),
               ("method", .str "tools/call"),
               ("params", .obj [("name", .str "boom"),
                                ("arguments", .obj [])])]) =
      createSuccessResponse (some (.num 9))
        (callToolResult ("Tool execution error: " ++ "kaput") true) :=
  ((tools_call_error_wrapping
      [("boom", ⟨"a tool that raises", .obj [], fun _ => .exc "kaput"⟩)]
      9 "boom" []).1
    ⟨"a tool that raises", .obj [], fun _ => .exc "kaput"⟩ rfl).1 "kaput" rfl |>.1

/-- C8: the authorize operation checks `responseType`, then
`codeChallengeMethod`, then the client, then the redirect-URI allow-list,
in that order; on success it stores a fresh code with
`expiresAt = now + 600` and redirects to `redirectUri` with the code and
the original state as query parameters. -/
theorem authorize_checks_and_issue (env : Env) (st : ServerState) (now : Nat)
    (fresh rt cid ruri scope state ch chm : String) :
    (rt ≠ "code" →
       oauth_authorize_endpoint env st now fresh rt cid ruri scope state ch chm =
         (.redirect ruri
           [("error", "unsupported_response_type"),
            ("error_description", "Only \x27code\x27 response type is supported"),
            ("state", state)], st)) ∧
    (rt = "code" → chm ≠ "S256" →
       oauth_authorize_endpoint env st now fresh rt cid ruri scope state ch chm =
         (.redirect ruri
           [("error", "invalid_request"),
            ("error_description", "Only S256 code challenge method is supported"),
            ("state", state)], st)) ∧
    (rt = "code" → chm = "S256" →
       ¬ (cid = env.MCP_CLIENT_ID ∨ (lookupStr cid st.registered_clients).isSome) →
       oauth_authorize_endpoint env st now fresh rt cid ruri scope state ch chm =
         (.redirect ruri
           [("error", "invalid_client"),
            ("error_description", "Unknown client_id"),
            ("state", state)], st)) ∧
    (rt = "code" → chm = "S256" →
       (cid = env.MCP_CLIENT_ID ∨ (lookupStr cid st.registered_clients).isSome) →
       ruri ∉ allowed_redirects →
       oauth_authorize_endpoint env st now fresh rt cid ruri scope state ch chm =
         (.httpError 400 "invalid_redirect_uri", st)) ∧
    (rt = "code" → chm = "S256" →
       (cid = env.MCP_CLIENT_ID ∨ (lookupStr cid st.registered_clients).isSome) →
       ruri ∈ allowed_redirects →
       oauth_authorize_endpoint env st now fresh rt cid ruri scope state ch chm =
         (.redirect ruri [("code", "auth_code_" ++ fresh), ("state", state)],
          { st with
              authorization_codes := insertStr ("auth_code_" ++ fresh)
                ⟨cid, ruri, scope, ch, chm, now + 600⟩ st.authorization_codes })) := by
  refine ⟨?_, ?_, ?_, ?_, ?_⟩ <;> intros h1
  · simp [oauth_authorize_endpoint, h1]
  all_goals intros h2
  · simp [oauth_authorize_endpoint, h1, h2]
  all_goals intros h3
  · simp [oauth_authorize_endpoint, h1, h2, h3]
  all_goals intros h4
  · simp [oauth_authorize_endpoint, h1, h2, h3, h4]
  · simp [oauth_authorize_endpoint, h1, h2, h3, h4]

/-- Witness for C8: the success branch at a concrete request. -/
theorem authorize_checks_and_issue_witness :
    oauth_authorize_endpoint exEnv exStore 42 "f" "code" "toolarr-client"
        "http://localhost:3000/auth/callback" "mcp:tools" "st8" "chal" "S256" =
      (.redirect "http://localhost:3000/auth/callback"
         [("code", "auth_code_" ++ "f"), ("state", "st8")],
       { exStore with
           authorization_codes := insertStr ("auth_code_" ++ "f")
             ⟨"toolarr-client", "http://localhost:3000/auth/callback",
              "mcp:tools", "chal", "S256", 42 + 600⟩ exStore.authorization_codes }) :=
  (authorize_checks_and_issue exEnv exStore 42 "f" "code" "toolarr-client"
      "http://localhost:3000/auth/callback" "mcp:tools" "st8" "chal"
      "S256").2.2.2.2 rfl rfl (Or.inl rfl) (by decide)

/-- C9: two successive registrations, even with the same `client_name`,
return distinct `clientId` and `clientSecret` values (given that the two
random draws differ, which is what `secrets.token_urlsafe` provides), and
registration always succeeds for any object body, with or without
`client_name`: the response is determined by the draws alone. -/
theorem registration_no_dedup (st : ServerState) (now1 now2 : Nat)
    (name1 name2 : Option String) (a1 b1 a2 b2 : String)
    (ha : a1 ≠ a2) (hb : b1 ≠ b2) :
    (dynamic_client_registration st now1 name1 a1 b1).1.client_id ≠
      (dynamic_client_registration
        (dynamic_client_registration st now1 name1 a1 b1).2 now2 name2 a2 b2).1.client_id ∧
    (dynamic_client_registration st now1 name1 a1 b1).1.client_secret ≠
      (dynamic_client_registration
        (dynamic_client_registration st now1 name1 a1 b1).2 now2 name2 a2 b2).1.client_secret ∧
    (dynamic_client_registration st now1 name1 a1 b1).1 =
      { client_id := "mcp-" ++ a1, client_secret := b1, client_id_issued_at := now1 } ∧
    (dynamic_client_registration
        (dynamic_client_registration st now1 name1 a1 b1).2 now2 name2 a2 b2).1 =
      { client_id := "mcp-" ++ a2, client_secret := b2, client_id_issued_at := now2 } := by
  refine ⟨?_, hb, rfl, rfl⟩
  intro h
  exact ha (string_append_left_inj "mcp-" h)

/-- Witness for C9: two registrations with the same name, distinct draws. -/
theorem registration_no_dedup_witness :
    (dynamic_client_registration exStore 5 (some "claude") "aaa" "s1").1.client_id ≠
      (dynamic_client_registration
        (dynamic_client_registration exStore 5 (some "claude") "aaa" "s1").2
        6 (some "claude") "bbb" "s2").1.client_id :=
  (registration_no_dedup exStore 5 6 (some "claude") (some "claude")
      "aaa" "s1" "bbb" "s2" (by decide) (by decide)).1

/-- C10: the redirect-URI allow-list is checked only after the
`responseType`, `codeChallengeMethod` and `clientId` checks, so a request
failing one of those earlier checks is answered with a redirect carrying
the OAuth error parameters to the caller-supplied `redirectUri` even when
that URI is not in the allow-list. -/
theorem authorize_error_redirect_bypasses_allowlist (env : Env) (st : ServerState)
    (now : Nat) (fresh rt cid ruri scope state ch chm : String)
    (_hnot : ruri ∉ allowed_redirects) :
    (rt ≠ "code" →
       oauth_authorize_endpoint env st now fresh rt cid ruri scope state ch chm =
         (.redirect ruri
           [("error", "unsupported_response_type"),
            ("error_description", "Only \x27code\x27 response type is supported"),
            ("state", state)], st)) ∧
    (rt = "code" → chm ≠ "S256" →
       oauth_authorize_endpoint env st now fresh rt cid ruri scope state ch chm =
         (.redirect ruri
           [("error", "invalid_request"),
            ("error_description", "Only S256 code challenge method is supported"),
            ("state", state)], st)) ∧
    (rt = "code" → chm = "S256" →
       ¬ (cid = env.MCP_CLIENT_ID ∨ (lookupStr cid st.registered_clients).isSome) →
       oauth_authorize_endpoint env st now fresh rt cid ruri scope state ch chm =
         (.redirect ruri
           [("error", "invalid_client"),
            ("error_description", "Unknown client_id"),
            ("state", state)], st)) := by
  refine ⟨?_, ?_, ?_⟩ <;> intros h1
  · simp [oauth_authorize_endpoint, h1]
  all_goals intros h2
  · simp [oauth_authorize_endpoint, h1, h2]
  all_goals intros h3
  · simp [oauth_authorize_endpoint, h1, h2, h3]

/-- Witness for C10: `response_type=token` with a redirect URI outside the
allow-list still receives the OAuth error redirect to that URI. -/
theorem authorize_error_redirect_bypasses_allowlist_witness :
    oauth_authorize_endpoint exEnv exStore 42 "f" "token" "toolarr-client"
        "https://evil.example/cb" "mcp:tools" "st8" "chal" "S256" =
      (.redirect "https://evil.example/cb"
         [("error", "unsupported_response_type"),
          ("error_description", "Only \x27code\x27 response type is supported"),
          ("state", "st8")], exStore) :=
  (authorize_error_redirect_bypasses_allowlist exEnv exStore 42 "f" "token"
      "toolarr-client" "https://evil.example/cb" "mcp:tools" "st8" "chal" "S256"
      (by decide)).1 (by decide)

end Toolarr
